import Mathlib

/-!
Verification development for the CRM backend's lead-engagement and
call-scheduling core (lead status lifecycle, booking creation with conflict
detection, lead-to-customer conversion, session replacement).

The store is modelled as in-memory lists of documents; each controller
operation is a pure function from the pre-state and the request to a typed
result plus the post-state.  MongoDB query semantics are modelled literally:
an equality filter on a field matches a document exactly when the document
carries that field with that value, so a filter on a path the schema never
stores (for example the booking pre-check's isActive filter, or the lead
lookup's userId filter in manual conversion) matches no stored document.
Wall-clock instants are epoch milliseconds (Nat).  Object ids are Nat.
-/

/-- JavaScript truthiness default for numbers: d || k is k when d is absent
or 0 (falsy), else d.  Mirrors duration: duration || 30. -/
def jsNumOr (d : Option Nat) (k : Nat) : Nat :=
  match d with
  | none => k
  | some n => if n == 0 then k else n

/-- JavaScript truthiness default for strings: s || k is k when s is the
empty string. -/
def jsStrOr (s k : String) : String :=
  if s == "" then k else s

/-- Statuses of the callScheduleSchema enum, src/models/CallSchedule.js. -/
inductive CallStatus
  | scheduled
  | completed
  | cancelled
  | noShow
deriving DecidableEq, Repr

/-- One entry of leadSchema.callHistory (src/unnamed/part_010): outcome tag,
timestamp, actor, optional note. -/
structure CallHistoryEntry where
  hstatus : String
  completedAt : Nat
  completedBy : Nat
  hnotes : String
deriving DecidableEq, Repr

/-- A stored Lead document, fields from leadSchema (src/models/Lead.js and
src/unnamed/part_010).  The schema defines no email, company or userId path. -/
structure LeadDoc where
  lid : Nat
  lname : String
  phone : String
  lstatus : String
  lnotes : String
  createdBy : Option Nat
  lastContacted : Option Nat
  callHistory : List CallHistoryEntry
  isActive : Bool
deriving DecidableEq, Repr

/-- Reading lead.email: leadSchema defines no email path, so the property is
undefined on every hydrated document. -/
def LeadDoc.email (_l : LeadDoc) : Option String := none

/-- Reading lead.company: not a leadSchema path, undefined on every document. -/
def LeadDoc.company (_l : LeadDoc) : Option String := none

/-- Reading lead.userId: not a leadSchema path, undefined on every document;
a query filter userId = u therefore matches no stored lead. -/
def LeadDoc.userIdField (_l : LeadDoc) : Option Nat := none

/-- A stored CallSchedule document, fields from callScheduleSchema
(src/models/CallSchedule.js).  The schema defines no isActive path; writers
never set one, so the field is modelled as an Option that creation leaves
none.  The controller's pre-check nonetheless filters on isActive = true. -/
structure Booking where
  bid : Nat
  leadId : Nat
  scheduledBy : Nat
  scheduledDate : Nat
  scheduledTime : String
  duration : Nat
  bstatus : CallStatus
  reminderSent : Bool
  isActive : Option Bool
deriving DecidableEq, Repr

/-- A stored Customer document, fields from customerSchema
(src/unnamed/part_011, second chunk).  email is required and unique. -/
structure CustomerDoc where
  cid : Nat
  cname : String
  cemail : String
  cphone : Option String
  ccompany : Option String
  cstatus : String
  cnotes : String
  convertedFromLeadId : Nat
  convertedAt : Nat
  userId : Nat
deriving DecidableEq, Repr

/-- Lead.findOne with filter _id = lid, isActive = true (createCallSchedule,
src/controllers/callScheduleController.js line 21). -/
def findActiveLead (leads : List LeadDoc) (l : Nat) : Option LeadDoc :=
  leads.find? (fun x => x.lid == l && x.isActive)

/-- CallSchedule.findOne pre-check (createCallSchedule lines 37-43): same
lead, date and time, status in [Scheduled, Completed], and isActive = true.
No stored booking carries an isActive field, so the last conjunct can only be
met by a document outside the schema's reach. -/
def preCheck (s : List Booking) (l d : Nat) (t : String) : Option Booking :=
  s.find? (fun b => b.leadId == l && b.scheduledDate == d && b.scheduledTime == t
    && (b.bstatus == CallStatus.scheduled || b.bstatus == CallStatus.completed)
    && b.isActive == some true)

/-- The unique compound index unique_call_schedule on
(leadId, scheduledDate, scheduledTime, status) (src/models/CallSchedule.js
lines 130-134): an insert raises error 11000 exactly when a stored document
has the same key. -/
def hasUniqueKeyConflict (s : List Booking) (nb : Booking) : Bool :=
  s.any (fun x => x.leadId == nb.leadId && x.scheduledDate == nb.scheduledDate
    && x.scheduledTime == nb.scheduledTime && x.bstatus == nb.bstatus)

/-- Whether some stored booking already occupies (l, d, t) with status
Scheduled, the unique-index key a new insert uses. -/
def scheduledKeyTaken (s : List Booking) (l d : Nat) (t : String) : Bool :=
  s.any (fun x => x.leadId == l && x.scheduledDate == d && x.scheduledTime == t
    && x.bstatus == CallStatus.scheduled)

/-- Typed outcome of createCallSchedule.  preCheckConflict carries the
blocking booking's id, date, time and status (response lines 46-54);
duplicateSchedule is the error-11000 translation (lines 85-90), which
carries no blocking-booking data. -/
inductive CreateScheduleResult
  | notFound
  | preCheckConflict (blockingId blockingDate : Nat) (blockingTime : String)
      (blockingStatus : CallStatus)
  | duplicateSchedule
  | created (b : Booking)
deriving DecidableEq, Repr

/-- HTTP status code of each createCallSchedule response. -/
def CreateScheduleResult.httpStatus : CreateScheduleResult → Nat
  | .notFound => 404
  | .preCheckConflict _ _ _ _ => 400
  | .duplicateSchedule => 400
  | .created _ => 201

/-- The message string of each createCallSchedule response, verbatim from the
controller. -/
def CreateScheduleResult.message : CreateScheduleResult → String
  | .notFound => "Lead not found"
  | .preCheckConflict _ _ _ _ => "A call is already scheduled for this lead at this time"
  | .duplicateSchedule => "A call is already scheduled for this lead at this time"
  | .created _ => "Call scheduled successfully"

/-- The blocking booking's (id, date, time, status) reported by a conflict
response, when the response carries them. -/
def CreateScheduleResult.conflictDetails :
    CreateScheduleResult → Option (Nat × Nat × String × CallStatus)
  | .preCheckConflict i d t st => some (i, d, t, st)
  | _ => none

/-- Post-state and result of one createCallSchedule request. -/
structure CreateOutcome where
  result : CreateScheduleResult
  bookings : List Booking
  leads : List LeadDoc
deriving DecidableEq, Repr

/-- The lead.createdBy backfill of createCallSchedule (lines 29-34): when
the found lead has no createdBy, it is saved with the requesting user. -/
def createdByFix (l uid : Nat) (x : LeadDoc) : LeadDoc :=
  if x.lid == l then { x with createdBy := some uid } else x

/-- The document new CallSchedule(...) builds (lines 57-63): status defaults
to Scheduled, reminderSent to false, duration is duration || 30, and no
isActive field is written. -/
def mkBooking (l d : Nat) (t : String) (dur : Option Nat) (uid newBid : Nat) : Booking :=
  { bid := newBid, leadId := l, scheduledBy := uid, scheduledDate := d,
    scheduledTime := t, duration := jsNumOr dur 30,
    bstatus := CallStatus.scheduled, reminderSent := false, isActive := none }

/-- The lead store after the conditional createdBy backfill: changed only
when the found lead had no createdBy. -/
def leadsAfterBackfill (leads : List LeadDoc) (lead : LeadDoc) (l uid : Nat) :
    List LeadDoc :=
  if lead.createdBy == none then leads.map (createdByFix l uid) else leads

/-- createCallSchedule (src/controllers/callScheduleController.js lines
7-94): look up the active lead (404 if absent), backfill lead.createdBy when
unset, run the duplicate pre-check (400 with the blocking booking's data when
it matches), then insert with status Scheduled and duration
(duration || 30); the unique index turns a duplicate
(leadId, date, time, Scheduled) insert into the 400 DUPLICATE_SCHEDULE
response, leaving the store unchanged. -/
def createCallSchedule (bookings : List Booking) (leads : List LeadDoc)
    (l d : Nat) (t : String) (dur : Option Nat) (uid newBid : Nat) : CreateOutcome :=
  match findActiveLead leads l with
  | none => ⟨.notFound, bookings, leads⟩
  | some lead =>
    match preCheck bookings l d t with
    | some ex =>
      ⟨.preCheckConflict ex.bid ex.scheduledDate ex.scheduledTime ex.bstatus, bookings,
        leadsAfterBackfill leads lead l uid⟩
    | none =>
      if hasUniqueKeyConflict bookings (mkBooking l d t dur uid newBid)
      then ⟨.duplicateSchedule, bookings, leadsAfterBackfill leads lead l uid⟩
      else ⟨.created (mkBooking l d t dur uid newBid),
        bookings ++ [mkBooking l d t dur uid newBid], leadsAfterBackfill leads lead l uid⟩

/-- Customer.findByEmail (src/unnamed/part_011 lines 130-133) applied to a
possibly-undefined email.  Mongoose drops query keys whose value is
undefined, so findOne with only an undefined email condition returns the
first stored customer, if any. -/
def findByEmail (cs : List CustomerDoc) (e : Option String) : Option CustomerDoc :=
  match e with
  | none => cs.head?
  | some s => cs.find? (fun c => c.cemail == s)

/-- Customer.findByLeadId (src/unnamed/part_011 lines 135-138): findOne on
convertedFrom.leadId. -/
def findByLeadId (cs : List CustomerDoc) (l : Nat) : Option CustomerDoc :=
  cs.find? (fun c => c.convertedFromLeadId == l)

/-- new Customer(...).save(): customerSchema validation requires email (and
rejects a missing one before any write); the unique index on email raises
error 11000 when a stored customer already has it.  On success the document
is appended. -/
def customerSave (cs : List CustomerDoc) (newCid : Nat) (nm : String)
    (em : Option String) (ph co : Option String) (nt : String)
    (fromLead now uid : Nat) : Except String (List CustomerDoc) :=
  match em with
  | none => Except.error "ValidationError: email is required"
  | some e =>
    if cs.any (fun c => c.cemail == e)
    then Except.error "E11000 duplicate key"
    else Except.ok (cs ++
      [{ cid := newCid, cname := nm, cemail := e, cphone := ph, ccompany := co,
         cstatus := "active", cnotes := nt, convertedFromLeadId := fromLead,
         convertedAt := now, userId := uid }])

/-- The validStatuses list of updateLeadStatus, verbatim. -/
def validStatuses : List String := ["New", "Qualified", "Negotiation", "Closed", "Lost"]

/-- Typed outcome of updateLeadStatus. -/
inductive UpdateStatusResult
  | invalidStatus
  | leadMissing
  | ok (l : LeadDoc)
deriving DecidableEq, Repr

/-- HTTP status code of each updateLeadStatus response. -/
def UpdateStatusResult.httpStatus : UpdateStatusResult → Nat
  | .invalidStatus => 400
  | .leadMissing => 404
  | .ok _ => 200

/-- updateLeadStatus, first variant (src/controllers/leadsController.js lines
444-501): validate the status against the enum, then findOneAndUpdate with
filter _id = id, isActive = true; 404 when no active lead matches.  This
variant performs no conversion. -/
def updateLeadStatusV1 (leads : List LeadDoc) (id : Nat) (st : String) :
    UpdateStatusResult × List LeadDoc :=
  if st ∈ validStatuses then
    match leads.find? (fun x => x.lid == id && x.isActive) with
    | none => (.leadMissing, leads)
    | some lead =>
      let lead' := { lead with lstatus := st }
      (.ok lead', leads.map (fun x => if x.lid == id then lead' else x))
  else (.invalidStatus, leads)

/-- Post-state and result of one updateLeadStatus (second variant) request. -/
structure LeadUpdateOutcome where
  result : UpdateStatusResult
  leads : List LeadDoc
  customers : List CustomerDoc
deriving DecidableEq, Repr

/-- The conversion block of updateLeadStatus, second variant
(src/controllers/leadsController.js lines 1377-1411, identical in
src/unnamed/part_002 lines 439-473): skip when a customer already matches
the lead's email, else skip when one is already linked to the lead id, else
create one from the lead's contact fields; any thrown conversion error is
caught and logged, leaving the customer store unchanged.  The lead carries
no email (not a leadSchema path), so the Customer constructor is handed an
undefined email. -/
def convertQualifiedLead (customers : List CustomerDoc) (lead' : LeadDoc)
    (uid now newCid : Nat) : List CustomerDoc :=
  match findByEmail customers lead'.email with
  | some _ => customers
  | none =>
    match findByLeadId customers lead'.lid with
    | some _ => customers
    | none =>
      match customerSave customers newCid lead'.lname lead'.email
          (some lead'.phone) lead'.company
          ("Converted from qualified lead: " ++ jsStrOr lead'.lnotes "No notes")
          lead'.lid now uid with
      | Except.ok cs => cs
      | Except.error _ => customers

/-- updateLeadStatus, second variant (src/controllers/leadsController.js
lines 1350-1427, identical in src/unnamed/part_002 lines 410-489): validate
the status against the enum, findByIdAndUpdate with no isActive filter (404
only when the id matches no lead at all), then run convertQualifiedLead when
the new status is Qualified; the response is ok with the updated lead
whatever the conversion branch did. -/
def updateLeadStatusV2 (leads : List LeadDoc) (customers : List CustomerDoc)
    (id : Nat) (st : String) (uid now newCid : Nat) : LeadUpdateOutcome :=
  if st ∈ validStatuses then
    match leads.find? (fun x => x.lid == id) with
    | none => ⟨.leadMissing, leads, customers⟩
    | some lead =>
      ⟨.ok { lead with lstatus := st },
       leads.map (fun x => if x.lid == id then { lead with lstatus := st } else x),
       if st == "Qualified"
       then convertQualifiedLead customers { lead with lstatus := st } uid now newCid
       else customers⟩
  else ⟨.invalidStatus, leads, customers⟩

/-- Typed outcome of convertLeadToCustomer. -/
inductive ConvertLeadResult
  | leadMissing
  | alreadyConverted
  | converted (c : CustomerDoc)
  | serverError (msg : String)
deriving DecidableEq, Repr

/-- Post-state and result of one convertLeadToCustomer request. -/
structure ConvertOutcome where
  result : ConvertLeadResult
  leads : List LeadDoc
  customers : List CustomerDoc
deriving DecidableEq, Repr

/-- convertLeadToCustomer (src/controllers/customerController.js lines
171-224): Lead.findOne with filter _id = leadId, userId = req.user._id —
but userId is not a leadSchema path, so no stored lead can satisfy the
filter; 404 when the filter matches nothing.  Were a lead found, the code
would dedupe by convertedFrom.leadId, build a Customer without any email
(failing required-email validation), and finally set lead.status to
Converted, a value outside the status enum. -/
def convertLeadToCustomer (leads : List LeadDoc) (customers : List CustomerDoc)
    (leadId reqUserId now newCid : Nat) : ConvertOutcome :=
  match leads.find? (fun x => x.lid == leadId && x.userIdField == some reqUserId) with
  | none => ⟨.leadMissing, leads, customers⟩
  | some lead =>
    match findByLeadId customers leadId with
    | some _ => ⟨.alreadyConverted, leads, customers⟩
    | none =>
      match customerSave customers newCid lead.lname none (some lead.phone) none
          ("Converted from lead: " ++ jsStrOr lead.lnotes "No notes")
          lead.lid now reqUserId with
      | Except.error e => ⟨.serverError e, leads, customers⟩
      | Except.ok cs =>
        ⟨.serverError "ValidationError: Converted is not a valid status", leads, cs⟩

/-- A stored Session document, fields from sessionSchema
(src/models/Session.js). -/
structure SessionDoc where
  sid : Nat
  userId : Nat
  loginTime : Nat
  logoutTime : Option Nat
  duration : Option Int
  isActive : Bool
deriving DecidableEq, Repr

/-- The Session.updateMany step of createSession (src/unnamed/part_001 lines
11-17): every active session of the user gets logoutTime = now and
isActive = false; no other field — in particular not duration — is
touched. -/
def deactivateForUser (uid now : Nat) (s : SessionDoc) : SessionDoc :=
  if s.userId == uid && s.isActive
  then { s with logoutTime := some now, isActive := false }
  else s

/-- createSession (src/unnamed/part_001 lines 6-46): deactivate every active
session of the user via updateMany, then insert a fresh active session with
loginTime = now and no logoutTime or duration. -/
def createSession (store : List SessionDoc) (uid now newSid : Nat) : List SessionDoc :=
  store.map (deactivateForUser uid now) ++
    [{ sid := newSid, userId := uid, loginTime := now, logoutTime := none,
       duration := none, isActive := true }]

/-- Session.endSession together with calculateDuration (src/models/Session.js
lines 44-58): stamp logoutTime = now, clear isActive, and compute
duration = logoutTime - loginTime. -/
def endSessionDoc (s : SessionDoc) (now : Nat) : SessionDoc :=
  { s with
      logoutTime := some now, isActive := false,
      duration := some ((now : Int) - (s.loginTime : Int)) }

/-- Two hours in milliseconds. -/
def twoHoursMs : Nat := 2 * 60 * 60 * 1000

/-- The calendar-date component of an epoch-millisecond instant (day index). -/
def dateOfMs (t : Nat) : Nat := t / 86400000

/-- The time-of-day token of an epoch-millisecond instant, an uninterpreted string
paired with the date. -/
def timeTokenOfMs (t : Nat) : String := toString (t % 86400000)

/-- Modelled from the spec: handleCallNotConnected is exported from the leads
controller and mounted at POST /:leadId/call-not-connected
(src/unnamed/part_005 lines 20 and 116), but its implementation is not
present under src.  Spec section 4.4: compute now + 2 hours, create a
booking for the derived date and time through the conflict-checked creation
path of section 4.2, append a not_connected call-history entry with
timestamp now, actor and a reference to the new booking's timestamp, and set
the lead's lastContacted to now; the lead-history update succeeds even when
the booking creation reports a conflict.  This function is the history and
lastContacted update applied to the lead. -/
def notConnectedHistoryAppend (l now actor : Nat) (x : LeadDoc) : LeadDoc :=
  if x.lid == l then
    { x with
        callHistory := x.callHistory ++
          [{ hstatus := "not_connected", completedAt := now, completedBy := actor,
             hnotes := "Rescheduled to " ++ toString (now + twoHoursMs) }],
        lastContacted := some now }
  else x

/-- Modelled from the spec: the handleCallNotConnected operation itself
(implementation absent from src, only imported and routed in
src/unnamed/part_005).  Per spec section 4.4 the booking-creation outcome is
passed through and the lead store is updated with the not_connected history
entry and lastContacted regardless of that outcome. -/
def handleCallNotConnected (bookings : List Booking) (leads : List LeadDoc)
    (l actor now newBid : Nat) : CreateOutcome :=
  ⟨(createCallSchedule bookings leads l (dateOfMs (now + twoHoursMs))
      (timeTokenOfMs (now + twoHoursMs)) none actor newBid).result,
   (createCallSchedule bookings leads l (dateOfMs (now + twoHoursMs))
      (timeTokenOfMs (now + twoHoursMs)) none actor newBid).bookings,
   ((createCallSchedule bookings leads l (dateOfMs (now + twoHoursMs))
      (timeTokenOfMs (now + twoHoursMs)) none actor newBid).leads).map
     (notConnectedHistoryAppend l now actor)⟩

/-! Helper lemmas about the booking-creation path. -/

/-- The createdBy backfill touches neither the lid nor the isActive flag, so
the active-lead lookup commutes with it. -/
theorem findActiveLead_map_createdByFix (ls : List LeadDoc) (l uid : Nat) :
    findActiveLead (ls.map (createdByFix l uid)) l
      = (findActiveLead ls l).map (createdByFix l uid) := by
  unfold findActiveLead
  rw [List.find?_map]
  have hp : ((fun x : LeadDoc => x.lid == l && x.isActive) ∘ createdByFix l uid)
      = (fun x : LeadDoc => x.lid == l && x.isActive) := by
    funext x
    simp only [Function.comp_apply, createdByFix]
    by_cases h : x.lid = l <;> simp [h]
  rw [hp]

/-- Inversion for a successful createCallSchedule run: the active lead was
found, the pre-check matched nothing, the unique key was free, and the new
booking was appended. -/
theorem createCallSchedule_created_inv {bk : List Booking} {ls : List LeadDoc}
    {l d : Nat} {t : String} {dur : Option Nat} {uid newBid : Nat}
    {A : Booking} {bk' : List Booking} {ls' : List LeadDoc}
    (h : createCallSchedule bk ls l d t dur uid newBid = ⟨.created A, bk', ls'⟩) :
    (∃ lead, findActiveLead ls l = some lead)
      ∧ preCheck bk l d t = none
      ∧ A = mkBooking l d t dur uid newBid
      ∧ hasUniqueKeyConflict bk A = false
      ∧ bk' = bk ++ [A]
      ∧ (ls' = ls ∨ ls' = ls.map (createdByFix l uid)) := by
  unfold createCallSchedule at h
  cases hfl : findActiveLead ls l with
  | none => rw [hfl] at h; simp at h
  | some lead =>
    rw [hfl] at h
    cases hpre : preCheck bk l d t with
    | some ex => rw [hpre] at h; simp at h
    | none =>
      rw [hpre] at h
      cases hdup : hasUniqueKeyConflict bk (mkBooking l d t dur uid newBid) with
      | true => rw [hdup] at h; simp at h
      | false =>
        rw [hdup] at h
        simp only [Bool.false_eq_true, if_false, CreateOutcome.mk.injEq,
          CreateScheduleResult.created.injEq] at h
        obtain ⟨hres, hbk, hls⟩ := h
        subst hres
        refine ⟨⟨lead, rfl⟩, rfl, rfl, hdup, hbk.symm, ?_⟩
        unfold leadsAfterBackfill at hls
        by_cases hcb : lead.createdBy == none
        · rw [hcb] at hls; simp at hls; right; exact hls.symm
        · simp [hcb] at hls; left; exact hls.symm

/-- A booking whose document carries no isActive field can never satisfy the
pre-check filter, so appending it leaves every pre-check answer unchanged. -/
theorem preCheck_append_noneActive (bk : List Booking) (b : Booking)
    (h : b.isActive = none) (l d : Nat) (t : String) :
    preCheck (bk ++ [b]) l d t = preCheck bk l d t := by
  unfold preCheck
  rw [List.find?_append]
  have hb : List.find? (fun x : Booking => x.leadId == l && x.scheduledDate == d
      && x.scheduledTime == t
      && (x.bstatus == CallStatus.scheduled || x.bstatus == CallStatus.completed)
      && x.isActive == some true) [b] = none := by
    simp [List.find?, h]
  rw [hb]
  cases List.find? _ bk <;> rfl

/-- In a store of schema-shaped bookings (none carries an isActive field) the
pre-check matches nothing. -/
theorem preCheck_eq_none_of_schemaShaped (bk : List Booking)
    (h : ∀ b ∈ bk, b.isActive = none) (l d : Nat) (t : String) :
    preCheck bk l d t = none := by
  unfold preCheck
  rw [List.find?_eq_none]
  intro b hb
  simp [h b hb]

/-- The unique-index test for a freshly built booking is exactly the
scheduled-slot-taken test on its (lead, date, time) triple. -/
theorem hasUniqueKeyConflict_mkBooking (bk : List Booking) (l d : Nat) (t : String)
    (dur : Option Nat) (uid newBid : Nat) :
    hasUniqueKeyConflict bk (mkBooking l d t dur uid newBid)
      = scheduledKeyTaken bk l d t := rfl

/-- Characterization of a successful createCallSchedule run. -/
theorem createCallSchedule_success (bk : List Booking) (ls : List LeadDoc)
    (l d : Nat) (t : String) (dur : Option Nat) (uid newBid : Nat) (lead : LeadDoc)
    (hfl : findActiveLead ls l = some lead)
    (hpre : preCheck bk l d t = none)
    (hdup : scheduledKeyTaken bk l d t = false) :
    createCallSchedule bk ls l d t dur uid newBid
      = ⟨.created (mkBooking l d t dur uid newBid),
         bk ++ [mkBooking l d t dur uid newBid],
         leadsAfterBackfill ls lead l uid⟩ := by
  unfold createCallSchedule
  rw [hfl, hpre, hasUniqueKeyConflict_mkBooking, hdup]
  rfl

/-- Sample documents used to instantiate hypothesis-carrying theorems. -/
def sampleLead : LeadDoc :=
  { lid := 1, lname := "Alice", phone := "5550001", lstatus := "New", lnotes := "",
    createdBy := some 9, lastContacted := none, callHistory := [], isActive := true }

/-- A soft-deleted lead (isActive = false). -/
def sampleInactiveLead : LeadDoc :=
  { lid := 2, lname := "Bob", phone := "5550002", lstatus := "New", lnotes := "",
    createdBy := some 9, lastContacted := none, callHistory := [], isActive := false }

/-- A stored Completed booking occupying slot (1, 20000, 10:00). -/
def sampleCompletedBooking : Booking :=
  { bid := 50, leadId := 1, scheduledBy := 7, scheduledDate := 20000,
    scheduledTime := "10:00", duration := 30, bstatus := CallStatus.completed,
    reminderSent := false, isActive := none }

/-- A stored active session of user 7 begun at instant 100. -/
def sampleSession : SessionDoc :=
  { sid := 1, userId := 7, loginTime := 100, logoutTime := none, duration := none,
    isActive := true }

/-- C1: once a Scheduled booking for a (lead, date, time) triple has been
created successfully, every further createCallSchedule request for the
identical triple fails deterministically with the 400 Conflict response and
leaves the booking store unchanged, enforced by the unique_call_schedule
index on (leadId, scheduledDate, scheduledTime, status): of any two such
requests exactly the first succeeds. -/
theorem c1_scheduled_slot_unique
    (bk : List Booking) (ls : List LeadDoc) (l d : Nat) (t : String)
    (dur1 dur2 : Option Nat) (u1 u2 b1 b2 : Nat)
    (A : Booking) (bk1 : List Booking) (ls1 : List LeadDoc)
    (h : createCallSchedule bk ls l d t dur1 u1 b1 = ⟨.created A, bk1, ls1⟩) :
    (createCallSchedule bk1 ls1 l d t dur2 u2 b2).result
        = CreateScheduleResult.duplicateSchedule
      ∧ (createCallSchedule bk1 ls1 l d t dur2 u2 b2).result.httpStatus = 400
      ∧ (createCallSchedule bk1 ls1 l d t dur2 u2 b2).bookings = bk1 := by
  obtain ⟨⟨lead, hfl⟩, hpre, hA, _hdup, hbk1, hls1⟩ := createCallSchedule_created_inv h
  obtain ⟨lead', hfl1⟩ : ∃ lead', findActiveLead ls1 l = some lead' := by
    cases hls1 with
    | inl he => exact ⟨lead, he ▸ hfl⟩
    | inr he =>
      refine ⟨createdByFix l u1 lead, ?_⟩
      rw [he, findActiveLead_map_createdByFix, hfl]
      rfl
  have hpre1 : preCheck bk1 l d t = none := by
    rw [hbk1]
    rw [preCheck_append_noneActive bk A (by rw [hA]; rfl) l d t]
    exact hpre
  have hdup1 : hasUniqueKeyConflict bk1 (mkBooking l d t dur2 u2 b2) = true := by
    rw [hbk1]
    unfold hasUniqueKeyConflict
    rw [List.any_append]
    have : List.any [A] (fun x : Booking =>
        x.leadId == (mkBooking l d t dur2 u2 b2).leadId
        && x.scheduledDate == (mkBooking l d t dur2 u2 b2).scheduledDate
        && x.scheduledTime == (mkBooking l d t dur2 u2 b2).scheduledTime
        && x.bstatus == (mkBooking l d t dur2 u2 b2).bstatus) = true := by
      simp [hA, mkBooking]
    rw [this, Bool.or_true]
  have hrun : createCallSchedule bk1 ls1 l d t dur2 u2 b2
      = ⟨.duplicateSchedule, bk1, leadsAfterBackfill ls1 lead' l u2⟩ := by
    unfold createCallSchedule
    rw [hfl1, hpre1, hdup1]
    rfl
  rw [hrun]
  exact ⟨rfl, rfl, rfl⟩

/-- Witness for C1 at a concrete input: the first booking of slot
(1, 20000, 10:00) succeeds, the identical second request gets the 400
duplicate response. -/
theorem c1_scheduled_slot_unique_witness :
    createCallSchedule [] [sampleLead] 1 20000 "10:00" (some 45) 7 100
        = ⟨.created (mkBooking 1 20000 "10:00" (some 45) 7 100),
           [] ++ [mkBooking 1 20000 "10:00" (some 45) 7 100],
           leadsAfterBackfill [sampleLead] sampleLead 1 7⟩
      ∧ (createCallSchedule ([] ++ [mkBooking 1 20000 "10:00" (some 45) 7 100])
           (leadsAfterBackfill [sampleLead] sampleLead 1 7)
           1 20000 "10:00" (some 60) 8 101).result
        = CreateScheduleResult.duplicateSchedule :=
  ⟨rfl, (c1_scheduled_slot_unique [] [sampleLead] 1 20000 "10:00" (some 45) (some 60)
      7 8 100 101 (mkBooking 1 20000 "10:00" (some 45) 7 100)
      ([] ++ [mkBooking 1 20000 "10:00" (some 45) 7 100])
      (leadsAfterBackfill [sampleLead] sampleLead 1 7) rfl).1⟩

/-- C2 counterexample: a duplicate-slot creation that fails by the unique
constraint returns the DUPLICATE_SCHEDULE response, which carries no
blocking-booking id, status, date or time — so it is not true that in both
detection paths the Conflict error reports those fields. -/
theorem c2_conflict_shape_counterexample :
    (createCallSchedule [mkBooking 1 20000 "10:00" (some 45) 7 100] [sampleLead]
        1 20000 "10:00" (some 60) 8 101).result
      = CreateScheduleResult.duplicateSchedule
    ∧ (createCallSchedule [mkBooking 1 20000 "10:00" (some 45) 7 100] [sampleLead]
        1 20000 "10:00" (some 60) 8 101).result.conflictDetails = none := by
  exact ⟨rfl, rfl⟩

/-- C2 amended: both duplicate detection paths answer HTTP 400 with the
identical message string, but only the pre-check response reports the
blocking booking's id, date, time and status; the unique-constraint
(error 11000) response carries no blocking-booking data, and a concrete
duplicate request indeed surfaces as that data-free response. -/
theorem c2_conflict_shape_amended (i d : Nat) (t : String) (st : CallStatus) :
    (CreateScheduleResult.preCheckConflict i d t st).httpStatus
        = CreateScheduleResult.duplicateSchedule.httpStatus
      ∧ (CreateScheduleResult.preCheckConflict i d t st).message
        = CreateScheduleResult.duplicateSchedule.message
      ∧ (CreateScheduleResult.preCheckConflict i d t st).conflictDetails
        = some (i, d, t, st)
      ∧ CreateScheduleResult.duplicateSchedule.conflictDetails = none
      ∧ (createCallSchedule [mkBooking 1 20000 "10:00" (some 45) 7 100] [sampleLead]
          1 20000 "10:00" none 8 101).result
        = CreateScheduleResult.duplicateSchedule := by
  exact ⟨rfl, rfl, rfl, rfl, rfl⟩

/-- C7: an existing Completed booking for a (lead, date, time) triple does
not block creating a new Scheduled booking for the same triple: when the
store is schema-shaped, the lead is active and no Scheduled booking occupies
the triple, createCallSchedule succeeds (201) even though a Completed
booking for the very triple is present. -/
theorem c7_completed_does_not_block
    (bk : List Booking) (ls : List LeadDoc) (l d : Nat) (t : String)
    (dur : Option Nat) (uid newBid : Nat) (lead : LeadDoc) (b0 : Booking)
    (hschema : ∀ b ∈ bk, b.isActive = none)
    (hfl : findActiveLead ls l = some lead)
    (hnosched : scheduledKeyTaken bk l d t = false)
    (hb0 : b0 ∈ bk) (hb0l : b0.leadId = l) (hb0d : b0.scheduledDate = d)
    (hb0t : b0.scheduledTime = t) (hb0st : b0.bstatus = CallStatus.completed) :
    (createCallSchedule bk ls l d t dur uid newBid).result
        = CreateScheduleResult.created (mkBooking l d t dur uid newBid)
      ∧ (createCallSchedule bk ls l d t dur uid newBid).result.httpStatus = 201
      ∧ (createCallSchedule bk ls l d t dur uid newBid).bookings
        = bk ++ [mkBooking l d t dur uid newBid]
      ∧ (mkBooking l d t dur uid newBid).bstatus = CallStatus.scheduled := by
  have hrun := createCallSchedule_success bk ls l d t dur uid newBid lead hfl
    (preCheck_eq_none_of_schemaShaped bk hschema l d t) hnosched
  rw [hrun]
  exact ⟨rfl, rfl, rfl, rfl⟩

/-- Witness for C7 at a concrete input: with a Completed booking stored for
slot (1, 20000, 10:00), a new Scheduled booking for the same slot is
created. -/
theorem c7_completed_does_not_block_witness :
    (∀ b ∈ [sampleCompletedBooking], b.isActive = none)
      ∧ findActiveLead [sampleLead] 1 = some sampleLead
      ∧ scheduledKeyTaken [sampleCompletedBooking] 1 20000 "10:00" = false
      ∧ sampleCompletedBooking ∈ [sampleCompletedBooking]
      ∧ sampleCompletedBooking.bstatus = CallStatus.completed
      ∧ (createCallSchedule [sampleCompletedBooking] [sampleLead]
           1 20000 "10:00" none 7 102).result
        = CreateScheduleResult.created (mkBooking 1 20000 "10:00" none 7 102) :=
  ⟨by decide, rfl, rfl, List.mem_singleton.mpr rfl, rfl,
    (c7_completed_does_not_block [sampleCompletedBooking] [sampleLead] 1 20000 "10:00"
      none 7 102 sampleLead sampleCompletedBooking (by decide) rfl rfl
      (List.mem_singleton.mpr rfl) rfl rfl rfl rfl).1⟩

/-- C8 counterexample: a createCallSchedule request with duration 1000 —
far outside [15, 480] — succeeds with 201 and stores the duration
unchanged, instead of failing with InvalidArgument: neither the controller
nor callScheduleSchema bounds the duration. -/
theorem c8_duration_counterexample :
    (createCallSchedule [] [sampleLead] 1 20000 "10:00" (some 1000) 7 103).result
      = CreateScheduleResult.created (mkBooking 1 20000 "10:00" (some 1000) 7 103)
    ∧ (mkBooking 1 20000 "10:00" (some 1000) 7 103).duration = 1000
    ∧ (createCallSchedule [] [sampleLead] 1 20000 "10:00"
        (some 1000) 7 103).result.httpStatus = 201
    ∧ ¬(1000 ≤ 480) := by
  exact ⟨rfl, rfl, rfl, by decide⟩

/-- C8 amended: an absent durationMinutes defaults to 30 (and so does 0,
through JavaScript falsiness of duration || 30), while any nonzero supplied
duration — inside or outside [15, 480] — is stored unchanged and the request
still succeeds; no InvalidArgument is ever raised for the duration. -/
theorem c8_duration_amended
    (bk : List Booking) (ls : List LeadDoc) (l d : Nat) (t : String)
    (dur : Option Nat) (uid newBid : Nat) (lead : LeadDoc)
    (hfl : findActiveLead ls l = some lead)
    (hpre : preCheck bk l d t = none)
    (hnosched : scheduledKeyTaken bk l d t = false) :
    (createCallSchedule bk ls l d t dur uid newBid).result
        = CreateScheduleResult.created (mkBooking l d t dur uid newBid)
      ∧ (mkBooking l d t dur uid newBid).duration = jsNumOr dur 30
      ∧ jsNumOr none 30 = 30
      ∧ jsNumOr (some 0) 30 = 30
      ∧ (∀ n : Nat, n ≠ 0 → jsNumOr (some n) 30 = n) := by
  have hrun := createCallSchedule_success bk ls l d t dur uid newBid lead hfl hpre hnosched
  rw [hrun]
  refine ⟨rfl, rfl, rfl, rfl, ?_⟩
  intro n hn
  unfold jsNumOr
  simp [hn]

/-- Witness for C8 at a concrete input: duration 1000 is accepted and stored
as given. -/
theorem c8_duration_amended_witness :
    findActiveLead [sampleLead] 1 = some sampleLead
      ∧ preCheck [] 1 20000 "10:00" = none
      ∧ scheduledKeyTaken [] 1 20000 "10:00" = false
      ∧ (createCallSchedule [] [sampleLead] 1 20000 "10:00" (some 1000) 7 103).result
        = CreateScheduleResult.created (mkBooking 1 20000 "10:00" (some 1000) 7 103) :=
  ⟨rfl, rfl, rfl,
    (c8_duration_amended [] [sampleLead] 1 20000 "10:00" (some 1000) 7 103 sampleLead
      rfl rfl rfl).1⟩

/-- The conversion block can never change the customer store: the lead hands
it an undefined email, so either the email lookup (findOne with the
undefined condition dropped) hits an arbitrary existing customer and the
block skips, or the store is empty, the lead-id lookup misses, and the
Customer save throws required-email validation, which the catch swallows. -/
theorem convertQualifiedLead_fixes_customers (customers : List CustomerDoc)
    (lead' : LeadDoc) (uid now newCid : Nat) :
    convertQualifiedLead customers lead' uid now newCid = customers := by
  cases customers with
  | nil => rfl
  | cons c cs => rfl

/-- C3: transitioning a lead to Qualified twice in sequence does NOT produce
exactly one Customer linked to the lead — it produces none at all.  The
customer store is invariant under every updateLeadStatusV2 call, and at the
concrete failing input (lead 1, empty customer store) both Qualified
transitions report ok while zero customers exist afterwards, zero of them
converted from lead 1. -/
theorem c3_qualify_twice_creates_no_customer :
    (∀ (leads : List LeadDoc) (customers : List CustomerDoc) (id : Nat) (st : String)
        (uid now newCid : Nat),
      (updateLeadStatusV2 leads customers id st uid now newCid).customers = customers)
    ∧ (updateLeadStatusV2 [sampleLead] [] 1 "Qualified" 9 5000 200).result
        = UpdateStatusResult.ok { sampleLead with lstatus := "Qualified" }
    ∧ (updateLeadStatusV2 (updateLeadStatusV2 [sampleLead] [] 1 "Qualified" 9 5000 200).leads
        (updateLeadStatusV2 [sampleLead] [] 1 "Qualified" 9 5000 200).customers
        1 "Qualified" 9 6000 201).result
        = UpdateStatusResult.ok { sampleLead with lstatus := "Qualified" }
    ∧ (updateLeadStatusV2 (updateLeadStatusV2 [sampleLead] [] 1 "Qualified" 9 5000 200).leads
        (updateLeadStatusV2 [sampleLead] [] 1 "Qualified" 9 5000 200).customers
        1 "Qualified" 9 6000 201).customers = []
    ∧ ((updateLeadStatusV2 (updateLeadStatusV2 [sampleLead] [] 1 "Qualified" 9 5000 200).leads
        (updateLeadStatusV2 [sampleLead] [] 1 "Qualified" 9 5000 200).customers
        1 "Qualified" 9 6000 201).customers.filter
          (fun c => c.convertedFromLeadId == 1)).length = 0 := by
  refine ⟨?_, rfl, rfl, rfl, rfl⟩
  intro leads customers id st uid now newCid
  unfold updateLeadStatusV2
  by_cases h : st ∈ validStatuses
  · simp only [h, if_true]
    cases hf : leads.find? (fun x => x.lid == id) with
    | none => rfl
    | some lead =>
      simp only
      by_cases hq : st == "Qualified"
      · simp [hq, convertQualifiedLead_fixes_customers]
      · simp [hq]
  · simp [h]

/-- C4: when a lead is found, a transition to Qualified commits the status
and reports success no matter what the conversion step did; the
Customer-creation step itself throws (required email is undefined on a
lead), yet the lead store carries the Qualified status and the customer
store is untouched. -/
theorem c4_conversion_failure_nonfatal
    (leads : List LeadDoc) (customers : List CustomerDoc) (id uid now newCid : Nat)
    (lead : LeadDoc)
    (hfind : leads.find? (fun x => x.lid == id) = some lead) :
    (updateLeadStatusV2 leads customers id "Qualified" uid now newCid).result
        = UpdateStatusResult.ok { lead with lstatus := "Qualified" }
      ∧ (updateLeadStatusV2 leads customers id "Qualified" uid now newCid).result.httpStatus
        = 200
      ∧ (updateLeadStatusV2 leads customers id "Qualified" uid now newCid).leads
        = leads.map (fun x =>
            if x.lid == id then { lead with lstatus := "Qualified" } else x)
      ∧ (updateLeadStatusV2 leads customers id "Qualified" uid now newCid).customers
        = customers
      ∧ customerSave customers newCid lead.lname (LeadDoc.email lead) (some lead.phone)
          (LeadDoc.company lead)
          ("Converted from qualified lead: " ++ jsStrOr lead.lnotes "No notes")
          lead.lid now uid
        = Except.error "ValidationError: email is required" := by
  have hv : ("Qualified" : String) ∈ validStatuses := by decide
  unfold updateLeadStatusV2
  rw [if_pos hv, hfind]
  exact ⟨rfl, rfl, rfl, convertQualifiedLead_fixes_customers customers _ uid now newCid, rfl⟩

/-- Witness for C4 at a concrete input. -/
theorem c4_conversion_failure_nonfatal_witness :
    ([sampleLead].find? (fun x => x.lid == 1) = some sampleLead)
      ∧ (updateLeadStatusV2 [sampleLead] [] 1 "Qualified" 9 5000 200).result
        = UpdateStatusResult.ok { sampleLead with lstatus := "Qualified" } :=
  ⟨rfl, (c4_conversion_failure_nonfatal [sampleLead] [] 1 9 5000 200 sampleLead rfl).1⟩

/-- C5 counterexample: on the updateLeadStatus variant without an isActive
filter, a transition request for a soft-deleted (inactive) lead succeeds
with 200 instead of failing with NotFound. -/
theorem c5_inactive_lead_counterexample :
    sampleInactiveLead.isActive = false
      ∧ (updateLeadStatusV2 [sampleInactiveLead] [] 2 "Negotiation" 9 0 300).result
        = UpdateStatusResult.ok { sampleInactiveLead with lstatus := "Negotiation" }
      ∧ (updateLeadStatusV2 [sampleInactiveLead] [] 2 "Negotiation" 9 0 300).result
        ≠ UpdateStatusResult.leadMissing := by
  exact ⟨rfl, rfl, by decide⟩

/-- C5 amended: both updateLeadStatus variants fail with InvalidStatus (400)
for a status outside the enum and with NotFound (404) when no lead has the
id; for an existing but inactive lead, only the variant that filters on
isActive returns NotFound — the variant without the filter (the one that
also converts) updates the inactive lead and reports success. -/
theorem c5_status_transition_errors_amended
    (leads : List LeadDoc) (customers : List CustomerDoc) (id : Nat) (st : String)
    (uid now newCid : Nat) :
    (st ∉ validStatuses →
        (updateLeadStatusV1 leads id st).1 = UpdateStatusResult.invalidStatus
        ∧ (updateLeadStatusV2 leads customers id st uid now newCid).result
          = UpdateStatusResult.invalidStatus)
      ∧ (st ∈ validStatuses → leads.find? (fun x => x.lid == id) = none →
        (updateLeadStatusV1 leads id st).1 = UpdateStatusResult.leadMissing
        ∧ (updateLeadStatusV2 leads customers id st uid now newCid).result
          = UpdateStatusResult.leadMissing)
      ∧ (∀ lead : LeadDoc, st ∈ validStatuses →
        leads.find? (fun x => x.lid == id) = some lead →
        lead.isActive = false →
        leads.find? (fun x => x.lid == id && x.isActive) = none →
        (updateLeadStatusV1 leads id st).1 = UpdateStatusResult.leadMissing
        ∧ (updateLeadStatusV2 leads customers id st uid now newCid).result
          = UpdateStatusResult.ok { lead with lstatus := st }) := by
  refine ⟨?_, ?_, ?_⟩
  · intro h
    constructor
    · unfold updateLeadStatusV1; rw [if_neg h]
    · unfold updateLeadStatusV2; rw [if_neg h]
  · intro h hnone
    have hnoneAct : leads.find? (fun x => x.lid == id && x.isActive) = none := by
      rw [List.find?_eq_none] at hnone ⊢
      intro x hx
      simp only [Bool.and_eq_true, not_and]
      intro hlid
      exact absurd hlid (by simpa using hnone x hx)
    constructor
    · unfold updateLeadStatusV1; rw [if_pos h, hnoneAct]
    · unfold updateLeadStatusV2; rw [if_pos h, hnone]
  · intro lead h hsome _hinact hnoneAct
    constructor
    · unfold updateLeadStatusV1; rw [if_pos h, hnoneAct]
    · unfold updateLeadStatusV2; rw [if_pos h, hsome]

/-- Witness for C5 at a concrete input: the inactive lead 2 is rejected by
the filtering variant and updated by the non-filtering one. -/
theorem c5_status_transition_errors_amended_witness :
    (("Negotiation" : String) ∈ validStatuses)
      ∧ ([sampleInactiveLead].find? (fun x => x.lid == 2) = some sampleInactiveLead)
      ∧ sampleInactiveLead.isActive = false
      ∧ ([sampleInactiveLead].find? (fun x => x.lid == 2 && x.isActive) = none)
      ∧ ((updateLeadStatusV1 [sampleInactiveLead] 2 "Negotiation").1
          = UpdateStatusResult.leadMissing
        ∧ (updateLeadStatusV2 [sampleInactiveLead] [] 2 "Negotiation" 9 0 300).result
          = UpdateStatusResult.ok { sampleInactiveLead with lstatus := "Negotiation" }) :=
  ⟨by decide, rfl, rfl, rfl,
    (c5_status_transition_errors_amended [sampleInactiveLead] [] 2 "Negotiation"
      9 0 300).2.2 sampleInactiveLead (by decide) rfl rfl rfl⟩

/-- C10: convertLeadToCustomer filters its lead lookup on a userId field the
Lead schema does not define, so the lookup misses for every store and every
requested id: the operation always answers NotFound (404) and never touches
the customer or lead stores. -/
theorem c10_manual_convert_always_notfound
    (leads : List LeadDoc) (customers : List CustomerDoc)
    (leadId reqUserId now newCid : Nat) :
    (convertLeadToCustomer leads customers leadId reqUserId now newCid).result
        = ConvertLeadResult.leadMissing
      ∧ (convertLeadToCustomer leads customers leadId reqUserId now newCid).customers
        = customers
      ∧ (convertLeadToCustomer leads customers leadId reqUserId now newCid).leads
        = leads := by
  have hnone : leads.find?
      (fun x => x.lid == leadId && x.userIdField == some reqUserId) = none := by
    rw [List.find?_eq_none]
    intro x _hx
    simp [LeadDoc.userIdField]
  unfold convertLeadToCustomer
  rw [hnone]
  exact ⟨rfl, rfl, rfl⟩

/-- C6 counterexample: replacing user 7's active session S1 (login 100) at
instant 250 deactivates S1 and stamps its end-time, but its stored duration
stays null — it is not computed, unlike what the explicit endSession path
would have stored. -/
theorem c6_replacement_duration_counterexample :
    createSession [sampleSession] 7 250 2
        = [⟨1, 7, 100, some 250, none, false⟩, ⟨2, 7, 250, none, none, true⟩]
      ∧ ((createSession [sampleSession] 7 250 2).head?.map SessionDoc.duration)
        = some none
      ∧ (endSessionDoc sampleSession 250).duration = some 150 := by
  exact ⟨rfl, rfl, rfl⟩

/-- C6 amended: starting a new session deactivates every prior active
session of the principal, stamping its end-time but leaving its stored
duration untouched (null for a live session — duration is only computed by
the endSession path), and afterwards exactly the newly created session is
active for that principal. -/
theorem c6_session_replacement_amended (store : List SessionDoc) (uid now newSid : Nat) :
    (∀ s : SessionDoc, s ∈ store → s.userId = uid → s.isActive = true →
        ({ s with logoutTime := some now, isActive := false }
            ∈ createSession store uid now newSid
          ∧ ({ s with logoutTime := some now, isActive := false } : SessionDoc).duration
            = s.duration))
      ∧ (createSession store uid now newSid).filter (fun s => s.userId == uid && s.isActive)
        = [⟨newSid, uid, now, none, none, true⟩] := by
  constructor
  · intro s hs hu ha
    constructor
    · unfold createSession
      refine List.mem_append_left _ ?_
      have hds : deactivateForUser uid now s
          = { s with logoutTime := some now, isActive := false } := by
        unfold deactivateForUser
        rw [if_pos (by simp [hu, ha])]
      exact hds ▸ List.mem_map_of_mem _ hs
    · rfl
  · unfold createSession
    rw [List.filter_append]
    have h1 : (store.map (deactivateForUser uid now)).filter
        (fun s => s.userId == uid && s.isActive) = [] := by
      rw [List.filter_eq_nil_iff]
      intro a ha
      rw [List.mem_map] at ha
      obtain ⟨j, _hj, hja⟩ := ha
      subst hja
      unfold deactivateForUser
      by_cases hc : j.userId == uid && j.isActive
      · rw [if_pos hc]
        simp
      · rw [if_neg hc]
        simp only [Bool.and_eq_true, not_and] at hc ⊢
        intro h1 h2
        exact hc (by simpa using h1) (by simpa using h2)
    rw [h1]
    simp

/-- Witness for C6 at a concrete input: S1 of user 7 is deactivated with a
stamped end-time, its duration stays what it was (null), and the new session
is the only active one. -/
theorem c6_session_replacement_amended_witness :
    sampleSession ∈ [sampleSession]
      ∧ sampleSession.userId = 7
      ∧ sampleSession.isActive = true
      ∧ ({ sampleSession with logoutTime := some 250, isActive := false }
            ∈ createSession [sampleSession] 7 250 2
          ∧ ({ sampleSession with logoutTime := some 250, isActive := false }
              : SessionDoc).duration = sampleSession.duration) :=
  ⟨List.mem_singleton.mpr rfl, rfl, rfl,
    (c6_session_replacement_amended [sampleSession] 7 250 2).1 sampleSession
      (List.mem_singleton.mpr rfl) rfl rfl⟩

/-- Once the active lead is found, every createCallSchedule branch leaves
the lead store in the backfilled state. -/
theorem createCallSchedule_leads_eq (bk : List Booking) (ls : List LeadDoc)
    (l d : Nat) (t : String) (dur : Option Nat) (uid newBid : Nat) (lead : LeadDoc)
    (hfl : findActiveLead ls l = some lead) :
    (createCallSchedule bk ls l d t dur uid newBid).leads
      = leadsAfterBackfill ls lead l uid := by
  unfold createCallSchedule
  rw [hfl]
  cases hpre : preCheck bk l d t with
  | some ex => rfl
  | none =>
    cases hdup : hasUniqueKeyConflict bk (mkBooking l d t dur uid newBid) with
    | true => rfl
    | false => rfl

/-- The backfilled lead store keeps a lead with the looked-up id and the
original call history. -/
theorem mem_leadsAfterBackfill (ls : List LeadDoc) (lead : LeadDoc) (l uid : Nat)
    (hmem : lead ∈ ls) (hlid : lead.lid = l) :
    ∃ l0 : LeadDoc, l0 ∈ leadsAfterBackfill ls lead l uid
      ∧ l0.lid = l ∧ l0.callHistory = lead.callHistory := by
  unfold leadsAfterBackfill
  by_cases h : lead.createdBy == none
  · rw [if_pos h]
    refine ⟨createdByFix l uid lead, List.mem_map_of_mem _ hmem, ?_, ?_⟩
    · unfold createdByFix
      rw [if_pos (by simp [hlid])]
      exact hlid
    · unfold createdByFix
      rw [if_pos (by simp [hlid])]
  · rw [if_neg h]
    exact ⟨lead, hmem, hlid, rfl⟩

/-- When the slot's unique key is already taken, createCallSchedule answers
with one of the two 400 conflict responses. -/
theorem createCallSchedule_conflict_http400 (bk : List Booking) (ls : List LeadDoc)
    (l d : Nat) (t : String) (dur : Option Nat) (uid newBid : Nat) (lead : LeadDoc)
    (hfl : findActiveLead ls l = some lead)
    (hdup : scheduledKeyTaken bk l d t = true) :
    (createCallSchedule bk ls l d t dur uid newBid).result.httpStatus = 400 := by
  unfold createCallSchedule
  rw [hfl]
  cases hpre : preCheck bk l d t with
  | some ex => rfl
  | none =>
    rw [hasUniqueKeyConflict_mkBooking bk l d t dur uid newBid, hdup]
    rfl

/-- C9: for an active lead, handleCallNotConnected called at instant now
books the derived (date, time) of now + 2 hours through the conflict-checked
creation path, appends a not_connected call-history entry with timestamp now
and actor to the lead, and sets the lead's lastContacted to now; the lead
update holds whatever the booking outcome was, the booking is created when
the auto-computed slot is free, and a taken slot yields a 400 conflict while
the lead update still succeeds. -/
theorem c9_auto_reschedule_two_hours
    (bk : List Booking) (ls : List LeadDoc) (l actor now newBid : Nat) (lead : LeadDoc)
    (hfl : findActiveLead ls l = some lead) :
    (∃ l' : LeadDoc, l' ∈ (handleCallNotConnected bk ls l actor now newBid).leads
        ∧ l'.lid = l ∧ l'.lastContacted = some now
        ∧ l'.callHistory = lead.callHistory
            ++ [{ hstatus := "not_connected", completedAt := now, completedBy := actor,
                  hnotes := "Rescheduled to " ++ toString (now + twoHoursMs) }])
      ∧ (preCheck bk l (dateOfMs (now + twoHoursMs)) (timeTokenOfMs (now + twoHoursMs))
            = none →
         scheduledKeyTaken bk l (dateOfMs (now + twoHoursMs))
            (timeTokenOfMs (now + twoHoursMs)) = false →
         (handleCallNotConnected bk ls l actor now newBid).result
            = CreateScheduleResult.created (mkBooking l (dateOfMs (now + twoHoursMs))
                (timeTokenOfMs (now + twoHoursMs)) none actor newBid)
          ∧ (handleCallNotConnected bk ls l actor now newBid).bookings
            = bk ++ [mkBooking l (dateOfMs (now + twoHoursMs))
                (timeTokenOfMs (now + twoHoursMs)) none actor newBid])
      ∧ (scheduledKeyTaken bk l (dateOfMs (now + twoHoursMs))
            (timeTokenOfMs (now + twoHoursMs)) = true →
         (handleCallNotConnected bk ls l actor now newBid).result.httpStatus = 400) := by
  refine ⟨?_, ?_, ?_⟩
  · have hmem : lead ∈ ls := List.mem_of_find?_eq_some hfl
    have hlid : lead.lid = l := by
      have hp := List.find?_some hfl
      simp only [Bool.and_eq_true, beq_iff_eq] at hp
      exact hp.1
    obtain ⟨l0, hl0mem, hl0lid, hl0hist⟩ :=
      mem_leadsAfterBackfill ls lead l actor hmem hlid
    refine ⟨notConnectedHistoryAppend l now actor l0, ?_, ?_, ?_, ?_⟩
    · show notConnectedHistoryAppend l now actor l0
        ∈ ((createCallSchedule bk ls l (dateOfMs (now + twoHoursMs))
            (timeTokenOfMs (now + twoHoursMs)) none actor newBid).leads).map
          (notConnectedHistoryAppend l now actor)
      rw [createCallSchedule_leads_eq bk ls l _ _ none actor newBid lead hfl]
      exact List.mem_map_of_mem _ hl0mem
    · unfold notConnectedHistoryAppend
      rw [if_pos (by simp [hl0lid])]
      exact hl0lid
    · unfold notConnectedHistoryAppend
      rw [if_pos (by simp [hl0lid])]
    · unfold notConnectedHistoryAppend
      rw [if_pos (by simp [hl0lid])]
      simp [hl0hist]
  · intro hpre hfree
    have hrun := createCallSchedule_success bk ls l (dateOfMs (now + twoHoursMs))
      (timeTokenOfMs (now + twoHoursMs)) none actor newBid lead hfl hpre hfree
    constructor
    · show (createCallSchedule bk ls l (dateOfMs (now + twoHoursMs))
          (timeTokenOfMs (now + twoHoursMs)) none actor newBid).result = _
      rw [hrun]
    · show (createCallSchedule bk ls l (dateOfMs (now + twoHoursMs))
          (timeTokenOfMs (now + twoHoursMs)) none actor newBid).bookings = _
      rw [hrun]
  · intro htaken
    exact createCallSchedule_conflict_http400 bk ls l _ _ none actor newBid lead hfl htaken

/-- Witness for C9 at a concrete input: lead 1, instant 1000000, empty
booking store: the T+2h booking is created and the history entry and
lastContacted are written. -/
theorem c9_auto_reschedule_two_hours_witness :
    findActiveLead [sampleLead] 1 = some sampleLead
      ∧ (∃ l' : LeadDoc, l' ∈ (handleCallNotConnected [] [sampleLead] 1 9 1000000 500).leads
          ∧ l'.lid = 1 ∧ l'.lastContacted = some 1000000
          ∧ l'.callHistory = sampleLead.callHistory
              ++ [{ hstatus := "not_connected", completedAt := 1000000, completedBy := 9,
                    hnotes := "Rescheduled to " ++ toString (1000000 + twoHoursMs) }])
      ∧ (handleCallNotConnected [] [sampleLead] 1 9 1000000 500).result
        = CreateScheduleResult.created (mkBooking 1 (dateOfMs (1000000 + twoHoursMs))
            (timeTokenOfMs (1000000 + twoHoursMs)) none 9 500) :=
  ⟨rfl,
   (c9_auto_reschedule_two_hours [] [sampleLead] 1 9 1000000 500 sampleLead rfl).1,
   ((c9_auto_reschedule_two_hours [] [sampleLead] 1 9 1000000 500 sampleLead rfl).2.1
     rfl rfl).1⟩
